import Mathlib

/-!
Shallow embedding of `net/instaweb/automatic/cache_html_flow.cc`
(classes `CacheHtmlComputationFetch`, `AsyncFetchWithHeadersInhibited`,
`CacheHtmlFlow`), together with theorems checking the natural-language
specification of the cache-html flow against this embedding.

External collaborators (hasher, timer, html detector, cloned rewrite
driver, static asset manager, response-header charset determination) are
modelled as parameters, following the spec's "interface only" treatment.
Statistics counters and property-store operations are modelled as an
explicit effect trace.
-/

/-- Model of the `CacheHtmlInfo` protobuf message (the Cached Render
Record).  The proto definition (`cache_html_info.pb.h`) is generated code
that is not part of the given source tree; fields follow the spec's data
model: `renderedHtml` (here `cached_html`), `contentHash` (`hash`),
`smartDiffHash` (`hash_smart_diff`), optional `charset`, and
`lastComputedAtMs` (`last_cached_html_computation_timestamp_ms`). -/
structure CacheHtmlInfo where
  cached_html : String
  hash : String
  hash_smart_diff : String
  charset : Option String
  last_cached_html_computation_timestamp_ms : Int
  deriving DecidableEq, Repr

/-- Modelled from the spec: proto presence of `cached_html`.  The spec's
data model declares `renderedHtml : bytes` with the invariant
"`renderedHtml` empty ⇒ record is treated as absent", so presence is
modelled as non-emptiness. -/
def CacheHtmlInfo.has_cached_html (i : CacheHtmlInfo) : Bool :=
  i.cached_html ≠ ""

/-- Presence of the optional charset field. -/
def CacheHtmlInfo.has_charset (i : CacheHtmlInfo) : Bool :=
  i.charset.isSome

/-- A freshly default-constructed (or `Clear()`ed) `CacheHtmlInfo`:
all string fields empty, charset unset, timestamp 0 (proto defaults). -/
def emptyCacheHtmlInfo : CacheHtmlInfo :=
  { cached_html := "", hash := "", hash_smart_diff := "",
    charset := none, last_cached_html_computation_timestamp_ms := 0 }

/-- The subset of `RewriteOptions` read by this flow. -/
structure RewriteOptions where
  enable_blink_html_change_detection : Bool
  enable_blink_html_change_detection_logging : Bool
  use_smart_diff_in_blink : Bool
  /-- `blink_max_html_size_rewritable()`, an `int64` option. -/
  blink_max_html_size_rewritable : Int
  /-- `GetBlinkCacheTimeFor(url)`: freshness window in milliseconds. -/
  blink_cache_time_ms : Int
  need_to_store_experiment_data : Bool
  running_furious : Bool

/-- Observable side effects of the flow: statistics-counter increments,
property-store operations, pipeline launches, barrier traffic and object
lifecycle, in the order the code performs them. -/
inductive Effect where
  | incHits
  | incMisses
  | incMatches
  | incMismatches
  | incSmartMatches
  | incSmartMismatches
  | incMismatchDeletes
  | logParseFailureDFatal
  | headersComplete
  | flushBody
  | writeProperty (bytes : List Nat)
  | deleteProperty
  | writeCohort
  | launchPlainComputation
  | launchChangeDetectionComputation
  | callFinish
  | processDiffRun
  | destroySelf
  | forwardDone (success : Bool)
  | removeConditionalHeaders
  | startProxyFetch
  deriving DecidableEq, BEq, Repr

/-! ### Serialization of the Cached Render Record

Modelled from the spec: the record is "serialized as an opaque blob"
(`SerializeToString` / `ParseFromZeroCopyStream` are protobuf-library
code outside the given source tree); the spec requires that a round trip
reproduce the fields.  We use a length-prefixed byte encoding, with
parse failure on malformed blobs. -/

/-- Encode a string as a length prefix followed by its character codes. -/
def encodeString (s : String) : List Nat :=
  s.data.length :: s.data.map Char.toNat

/-- Decode a length-prefixed string, returning the remaining bytes. -/
def decodeString : List Nat → Option (String × List Nat)
  | [] => none
  | n :: rest =>
    if n ≤ rest.length then
      some (String.mk ((rest.take n).map Char.ofNat), rest.drop n)
    else
      none

/-- Encode an optional string: tag byte 0 = absent, 1 = present. -/
def encodeOptString : Option String → List Nat
  | none => [0]
  | some s => 1 :: encodeString s

/-- Decode an optional string. -/
def decodeOptString : List Nat → Option (Option String × List Nat)
  | 0 :: rest => some (none, rest)
  | 1 :: rest =>
    match decodeString rest with
    | some (s, r) => some (some s, r)
    | none => none
  | _ => none

/-- Encode an integer as sign byte and magnitude. -/
def encodeInt (i : Int) : List Nat :=
  [if i < 0 then 1 else 0, i.natAbs]

/-- Decode an integer. -/
def decodeInt : List Nat → Option (Int × List Nat)
  | b :: n :: rest => some (if b = 0 then (n : Int) else -(n : Int), rest)
  | _ => none

/-- Serialize a `CacheHtmlInfo` record to a blob. -/
def serializeCacheHtmlInfo (i : CacheHtmlInfo) : List Nat :=
  encodeString i.cached_html ++
    (encodeString i.hash ++
      (encodeString i.hash_smart_diff ++
        (encodeOptString i.charset ++
          encodeInt i.last_cached_html_computation_timestamp_ms)))

/-- Parse a blob back into a `CacheHtmlInfo` record; `none` on malformed
input (a strict parse: trailing bytes are rejected). -/
def parseCacheHtmlInfo (bs : List Nat) : Option CacheHtmlInfo :=
  match decodeString bs with
  | none => none
  | some (ch, r1) =>
    match decodeString r1 with
    | none => none
    | some (h, r2) =>
      match decodeString r2 with
      | none => none
      | some (hsd, r3) =>
        match decodeOptString r3 with
        | none => none
        | some (cs, r4) =>
          match decodeInt r4 with
          | some (ts, []) =>
            some { cached_html := ch, hash := h, hash_smart_diff := hsd,
                   charset := cs,
                   last_cached_html_computation_timestamp_ms := ts }
          | _ => none

theorem decodeString_encodeString (s : String) (t : List Nat) :
    decodeString (encodeString s ++ t) = some (s, t) := by
  obtain ⟨l⟩ := s
  simp only [encodeString, decodeString, List.cons_append]
  rw [if_pos]
  · have htake : List.take l.length (l.map Char.toNat ++ t) = l.map Char.toNat :=
      List.take_left' (by simp)
    have hdrop : List.drop l.length (l.map Char.toNat ++ t) = t :=
      List.drop_left' (by simp)
    simp [htake, hdrop, List.map_map, Function.comp_def]
  · simp

theorem decodeOptString_encodeOptString (o : Option String) (t : List Nat) :
    decodeOptString (encodeOptString o ++ t) = some (o, t) := by
  cases o with
  | none => simp [encodeOptString, decodeOptString]
  | some s =>
    simp [encodeOptString, decodeOptString, decodeString_encodeString]

theorem decodeInt_encodeInt (i : Int) (t : List Nat) :
    decodeInt (encodeInt i ++ t) = some (i, t) := by
  by_cases h : i < 0
  · have habs : -((i.natAbs : Int)) = i := by omega
    simp only [encodeInt, if_pos h, decodeInt, List.cons_append, List.nil_append,
      if_neg (by decide : ¬(1 : Nat) = 0), habs]
  · have habs : ((i.natAbs : Int)) = i := by omega
    simp only [encodeInt, if_neg h, decodeInt, List.cons_append, List.nil_append,
      if_pos rfl, habs, if_true, eq_self_iff_true]

/-- Round trip: parsing a serialized record recovers the record. -/
theorem parseCacheHtmlInfo_serializeCacheHtmlInfo (i : CacheHtmlInfo) :
    parseCacheHtmlInfo (serializeCacheHtmlInfo i) = some i := by
  have h5 : decodeInt (encodeInt i.last_cached_html_computation_timestamp_ms) =
      some (i.last_cached_html_computation_timestamp_ms, []) := by
    have := decodeInt_encodeInt i.last_cached_html_computation_timestamp_ms []
    simpa using this
  simp only [parseCacheHtmlInfo, serializeCacheHtmlInfo,
    decodeString_encodeString, decodeOptString_encodeOptString, h5]

/-! ### External collaborator context -/

/-- External collaborators used by the flow, specified at their
interfaces only (hasher, timer, charset determination, static asset
manager, the cloned rewrite pipeline's output). -/
structure ServerCtx where
  /-- `server_context_->hasher()->Hash`. -/
  hasher : String → String
  /-- `server_context_->timer()->NowMs()`. -/
  now_ms : Int
  /-- `response_headers()->DetermineCharset()`. -/
  determined_charset : String
  /-- `static_asset_manager->GetAssetUrl(StaticAssetManager::kBlinkJs, options)`. -/
  blink_asset_url : String
  /-- Output of replaying a byte stream through the cloned rewrite
  pipeline driver (external filter pipeline). -/
  clone_rewrite : String → String

/-! ### CacheHtmlComputationFetch (the Origin Fetch Consumer) -/

/-- State of a `CacheHtmlComputationFetch` object. -/
structure CompFetch where
  claims_html : Bool
  probable_html : Bool
  content_length_over_threshold : Bool
  non_ok_status_code : Bool
  /-- Mirrors `html_detector_.already_decided()`. -/
  detector_decided : Bool
  buffer : String
  computed_hash : String
  computed_hash_smart_diff : String
  /-- The `CacheHtmlInfo` copied into this object at construction. -/
  cache_html_info : CacheHtmlInfo
  /-- The Completion Barrier flag, protected by `cache_html_change_mutex_`. -/
  finish : Bool
  deriving DecidableEq, Repr

/-- Constructor state of `CacheHtmlComputationFetch` (all flags false,
empty buffer and hashes, barrier flag unset). -/
def mkCompFetch (info : CacheHtmlInfo) : CompFetch :=
  { claims_html := false, probable_html := false,
    content_length_over_threshold := false, non_ok_status_code := false,
    detector_decided := false, buffer := "", computed_hash := "",
    computed_hash_smart_diff := "", cache_html_info := info, finish := false }

/-- `CacheHtmlComputationFetch::HandleHeadersComplete`: on a 200 record
whether the response claims to be HTML and whether a declared
content length exceeds `blink_max_html_size_rewritable`; on a non-200
set `non_ok_status_code_`. -/
def handleHeadersComplete (opts : RewriteOptions) (st : CompFetch)
    (status_code : Nat) (is_html_like : Bool)
    (content_length : Option Int) : CompFetch :=
  if status_code = 200 then
    let st1 := { st with claims_html := is_html_like }
    match content_length with
    | some cl =>
      if cl > opts.blink_max_html_size_rewritable then
        { st1 with content_length_over_threshold := true }
      else st1
    | none => st1
  else
    { st with non_ok_status_code := true }

/-- The size-threshold comparison performed by `HandleWrite`:
`unsigned(buffer_.size() + content.size()) > options_->blink_max_html_size_rewritable()`.
The `size_t` sum is cast to `unsigned` (32 bits), i.e. reduced mod 2^32,
before being widened to `int64` for the comparison. -/
def bufferOverCheck (buf_len content_len : Nat) (max_size : Int) : Bool :=
  (((buf_len + content_len) % 4294967296 : Nat) : Int) > max_size

/-- The answer the external `HtmlDetector` collaborator gives for one
`ConsiderInput` call: whether a decision got made on this chunk, the
decision itself, and the bytes `ReleaseBuffered` hands back (the
already-consumed earlier chunks). -/
structure DetectorAnswer where
  decides : Bool
  probable : Bool
  released : String

/-- `CacheHtmlComputationFetch::HandleWrite`.  Returns the updated state
and the boolean return value of the method (always `true`). -/
def handleWrite (opts : RewriteOptions) (st : CompFetch)
    (content : String) (det : DetectorAnswer) : CompFetch × Bool :=
  if ¬st.claims_html ∨ st.content_length_over_threshold then
    (st, true)
  else
    let st1 :=
      if ¬st.detector_decided ∧ det.decides then
        if det.probable then
          { st with detector_decided := true, probable_html := true,
                    buffer := st.buffer ++ det.released }
        else
          { st with detector_decided := true }
      else st
    if st1.probable_html then
      if bufferOverCheck st1.buffer.length content.length
          opts.blink_max_html_size_rewritable then
        ({ st1 with content_length_over_threshold := true, buffer := "" }, true)
      else
        ({ st1 with buffer := st1.buffer ++ content }, true)
    else
      (st1, true)

/-- The record written back by
`CacheHtmlComputationFetch::UpdatePropertyCacheWithCacheHtmlInfo`:
the held record with the charset determined from the response headers
and both computed hashes filled in (the timestamp field is not touched
by this method). -/
def updatedCacheHtmlInfo (ctx : ServerCtx) (st : CompFetch) : CacheHtmlInfo :=
  { st.cache_html_info with
      charset := some ctx.determined_charset,
      hash := st.computed_hash,
      hash_smart_diff := st.computed_hash_smart_diff }

/-- Effects of `UpdatePropertyCacheWithCacheHtmlInfo`: serialize the
updated record, `UpdateValue` it into the property, `WriteCohort`. -/
def updatePropertyCacheWithCacheHtmlInfo (ctx : ServerCtx)
    (st : CompFetch) : List Effect :=
  [.writeProperty (serializeCacheHtmlInfo (updatedCacheHtmlInfo ctx st)),
   .writeCohort]

/-- Effects of `DeleteCacheHtmlInfoFromPropertyCache`: bump the
mismatch-delete counter, `DeleteProperty`, `WriteCohort`. -/
def deleteCacheHtmlInfoFromPropertyCache : List Effect :=
  [.incMismatchDeletes, .deleteProperty, .writeCohort]

/-- `CacheHtmlComputationFetch::ProcessDiffResult`.  Emits a
`.processDiffRun` marker (entry into the method), then: abandon on an
empty computed hash; on a mismatch of the configured comparison hash
with active change detection, delete the entry and launch a fresh plain
computation; else persist the updated record when active change
detection is on or either hash differs; else just destroy. -/
def processDiffResult (ctx : ServerCtx) (opts : RewriteOptions)
    (st : CompFetch) : List Effect :=
  .processDiffRun ::
  (if st.computed_hash = "" then
    [.destroySelf]
  else
    let compute_cache_html_info :=
      if opts.use_smart_diff_in_blink then
        st.computed_hash_smart_diff ≠ st.cache_html_info.hash_smart_diff
      else
        st.computed_hash ≠ st.cache_html_info.hash
    if opts.enable_blink_html_change_detection ∧ compute_cache_html_info then
      deleteCacheHtmlInfoFromPropertyCache ++ [.launchPlainComputation]
    else if opts.enable_blink_html_change_detection ∨
        st.computed_hash ≠ st.cache_html_info.hash ∨
        st.computed_hash_smart_diff ≠ st.cache_html_info.hash_smart_diff then
      updatePropertyCacheWithCacheHtmlInfo ctx st ++ [.destroySelf]
    else
      [.destroySelf])

/-- `CacheHtmlComputationFetch::Finish` (the Completion Barrier): under
the mutex, the first caller sets `finish_` and returns with no effects;
the second caller falls through to `ProcessDiffResult`. -/
def finishFn (ctx : ServerCtx) (opts : RewriteOptions)
    (st : CompFetch) : CompFetch × List Effect :=
  if st.finish then
    (st, processDiffResult ctx opts st)
  else
    ({ st with finish := true }, [])

/-- The `Finish()` call site in
`AsyncFetchWithHeadersInhibited::HandleDone` (foreground side of the
Completion Barrier). -/
def foregroundFinishCall (ctx : ServerCtx) (opts : RewriteOptions)
    (st : CompFetch) : CompFetch × List Effect :=
  finishFn ctx opts st

/-- The `Finish()` call sites inside `CacheHtmlComputationFetch`
(background side of the Completion Barrier: diff completion, failed
fetch with an existing record, or cancellation). -/
def backgroundFinishCall (ctx : ServerCtx) (opts : RewriteOptions)
    (st : CompFetch) : CompFetch × List Effect :=
  finishFn ctx opts st

/-- `CacheHtmlComputationFetch::HandleDone`.  On a failed, non-200,
non-HTML or over-threshold stream: call `Finish` when a cached record
exists, otherwise destroy immediately.  Otherwise launch the
change-detection pipeline when diff (live or logging) is enabled, else
the plain computation pipeline. -/
def handleDone (ctx : ServerCtx) (opts : RewriteOptions) (st : CompFetch)
    (success : Bool) : CompFetch × List Effect :=
  if st.non_ok_status_code ∨ ¬success ∨ ¬st.claims_html ∨
      ¬st.probable_html ∨ st.content_length_over_threshold then
    if st.cache_html_info.has_cached_html then
      let (st1, ef) := backgroundFinishCall ctx opts st
      (st1, .callFinish :: ef)
    else
      (st, [.destroySelf])
  else if opts.enable_blink_html_change_detection ∨
      opts.enable_blink_html_change_detection_logging then
    (st, [.launchChangeDetectionComputation])
  else
    (st, [.launchPlainComputation])

/-- Modelled from the spec: the fixed end-marker token
`BlinkUtil::kComputeVisibleTextFilterOutputEndMarker` separating the
"smart diff" segment from the "full" segment of the visible-text
filter's output (the literal lives in `blink_util.h`, which is not part
of the given source tree; the claims depend only on it being a fixed
token). -/
def kComputeVisibleTextFilterOutputEndMarker : String :=
  "<!--GooglePanel **** Visible text end **** GooglePanel-->"

/-- Split a character list on every occurrence of a separator sequence
(fuelled recursion; fuel is the length of the remaining input). -/
def splitOnSubstrAux (sep : List Char) :
    Nat → List Char → List Char → List (List Char)
  | 0, acc, rest => [acc.reverse ++ rest]
  | fuel + 1, acc, rest =>
    match rest with
    | [] => [acc.reverse]
    | c :: cs =>
      if sep ≠ [] ∧ sep.isPrefixOf rest then
        acc.reverse :: splitOnSubstrAux sep fuel [] (rest.drop sep.length)
      else
        splitOnSubstrAux sep fuel (c :: acc) cs

/-- Modelled from the spec: `net_instaweb::SplitStringUsingSubstr`
(defined in `string_util.cc`, not part of the given source tree): split
a string on each occurrence of a substring. -/
def splitStringUsingSubstr (s sep : String) : List String :=
  (splitOnSubstrAux sep.data s.data.length [] s.data).map String.mk

/-- `CacheHtmlComputationFetch::CompleteFinishParseForHtmlChangeDriver`:
split the visible-text output on the end marker; when exactly two
segments result, hash the first into the smart-diff hash and the second
into the full hash; without a prior cached record fall through to the
plain computation; otherwise bump one counter per hash comparison and
call `Finish`. -/
def completeFinishParseForHtmlChangeDriver (ctx : ServerCtx)
    (opts : RewriteOptions) (st : CompFetch) (output : String) :
    CompFetch × List Effect :=
  let result := splitStringUsingSubstr output
      kComputeVisibleTextFilterOutputEndMarker
  let st1 :=
    match result with
    | [r0, r1] =>
      { st with computed_hash_smart_diff := ctx.hasher r0,
                computed_hash := ctx.hasher r1 }
    | _ => st
  if ¬st1.cache_html_info.has_cached_html then
    (st1, [.launchPlainComputation])
  else
    let e1 : Effect :=
      if st1.computed_hash ≠ st1.cache_html_info.hash then
        .incMismatches
      else .incMatches
    let e2 : Effect :=
      if st1.computed_hash_smart_diff ≠ st1.cache_html_info.hash_smart_diff then
        .incSmartMismatches
      else .incSmartMatches
    let (st2, ef) := backgroundFinishCall ctx opts st1
    (st2, e1 :: e2 :: .callFinish :: ef)

/-- `CacheHtmlComputationFetch::CompleteFinishParseForCacheHtmlComputationDriver`:
store the rewritten output and the current time into the record, then
persist it when non-empty and not over threshold; destroy. -/
def completeFinishParseForCacheHtmlComputationDriver (ctx : ServerCtx)
    (st : CompFetch) (rewritten_content : String) :
    CompFetch × List Effect :=
  let info := { st.cache_html_info with
      cached_html := rewritten_content,
      last_cached_html_computation_timestamp_ms := ctx.now_ms }
  let st1 := { st with cache_html_info := info }
  if ¬info.cached_html = "" ∧ ¬st.content_length_over_threshold then
    (st1, updatePropertyCacheWithCacheHtmlInfo ctx st1 ++ [.destroySelf])
  else
    (st1, [.destroySelf])

/-! ### CacheHtmlFlow (the Cache Render Flow) -/

/-- `CacheHtmlFlow::PopulateCacheHtmlInfo`: read the property value (the
slot may be absent), parse it (a failure is logged as DFATAL and the
record cleared), then clear the record when change detection is off and
the record is past its expiration time. -/
def populateCacheHtmlInfo (opts : RewriteOptions) (now_ms : Int)
    (slot : Option (List Nat)) : CacheHtmlInfo × List Effect :=
  match slot with
  | none => (emptyCacheHtmlInfo, [])
  | some bytes =>
    match parseCacheHtmlInfo bytes with
    | none => (emptyCacheHtmlInfo, [.logParseFailureDFatal])
    | some info =>
      let expiration_time_ms :=
        info.last_cached_html_computation_timestamp_ms +
          opts.blink_cache_time_ms
      if ¬opts.enable_blink_html_change_detection ∧
          now_ms > expiration_time_ms then
        (emptyCacheHtmlInfo, [])
      else
        (info, [])

/-- `kBlinkJsString` instantiated by `StringPrintf` with the static
asset URL: the external bootstrap script tag. -/
def blinkJsString (asset_url : String) : String :=
  "<script type=\"text/javascript\" src=\"" ++ asset_url ++ "\"></script>"

/-- `kCacheHtmlSuffixJsString`: the inline bootstrap script with its
three initialization calls. -/
def kCacheHtmlSuffixJsString : String :=
  "<script type=\"text/javascript\">" ++
  "pagespeed.panelLoaderInit();" ++
  "pagespeed.panelLoader.loadCriticalData(\x7b\x7d);" ++
  "pagespeed.panelLoader.loadImagesData(\x7b\x7d);" ++
  "</script>\n"

/-- The three fixed initialization calls of the inline bootstrap
script. -/
def panelLoaderInitCalls : List String :=
  ["pagespeed.panelLoaderInit();",
   "pagespeed.panelLoader.loadCriticalData(\x7b\x7d);",
   "pagespeed.panelLoader.loadImagesData(\x7b\x7d);"]

/-- Modelled from the spec: the rewriter-identification header name
(`kPsaRewriterHeader`, declared in `global_constants.h`, not part of the
given source tree). -/
def kPsaRewriterHeader : String := "X-PSA-Rewriter"

/-- Modelled from the spec: the filter id of `RewriteOptions::kCacheHtml`
(`RewriteOptions::FilterId`, not part of the given source tree). -/
def kCacheHtmlFilterId : String := "ch"

/-- The client-visible response assembled on the hit path. -/
structure HitResponse where
  status : Nat
  content_type : String
  /-- The `(kPsaRewriterHeader, FilterId(kCacheHtml))` header. -/
  rewriter_header : String × String
  /-- `SetDateAndCaching(now, 0, ", private, no-cache")` arguments. -/
  date_ms : Int
  cache_ttl_ms : Int
  cache_control_suffix : String
  /-- Whether the furious experiment cookie is stored. -/
  experiment_cookie : Bool
  body : String
  effects : List Effect
  deriving DecidableEq, Repr

/-- Which fetch object is handed to `StartNewProxyFetch`, and whether a
background computation consumer was constructed. -/
structure ProxyFetchSetup where
  /-- The `CacheHtmlComputationFetch` armed for this request (`none` when
  the null pointer is passed). -/
  consumer : Option CompFetch
  /-- `true` when the base fetch is wrapped in
  `AsyncFetchWithHeadersInhibited`. -/
  headers_inhibited : Bool
  deriving DecidableEq, Repr

/-- `CacheHtmlFlow::TriggerProxyFetch`: strip conditional request
headers; construct a computation consumer (with a copy of the record)
unless the cached html was already flushed and both change-detection
modes are off; wrap the base fetch in the header-suppressing relay
exactly when cached html was flushed; start the proxy fetch. -/
def triggerProxyFetch (opts : RewriteOptions)
    (flushed_cached_html : Bool) (info : CacheHtmlInfo) :
    ProxyFetchSetup × List Effect :=
  let consumer :=
    if ¬flushed_cached_html ∨ opts.enable_blink_html_change_detection ∨
        opts.enable_blink_html_change_detection_logging then
      some (mkCompFetch info)
    else
      none
  (⟨consumer, flushed_cached_html⟩,
   [.removeConditionalHeaders, .startProxyFetch])

/-- `CacheHtmlFlow::CacheHtmlMiss`: bump the miss counter and trigger
the proxy fetch (the cached html was not flushed on this path). -/
def cacheHtmlMiss (opts : RewriteOptions) (info : CacheHtmlInfo) :
    ProxyFetchSetup × List Effect :=
  let (setup, ef) := triggerProxyFetch opts false info
  (setup, .incMisses :: ef)

/-- `CacheHtmlFlow::CacheHtmlHit` followed by
`CacheHtmlFlow::CacheHtmlRewriteDone`: bump the hit counter, shape the
response headers, flush them, replay the cached html through the cloned
driver, then append the bootstrap script block once, flush, and trigger
the proxy fetch with `flushed_cached_html = true`. -/
def cacheHtmlHit (ctx : ServerCtx) (opts : RewriteOptions)
    (info : CacheHtmlInfo) : HitResponse × ProxyFetchSetup :=
  let content_type :=
    "text/html" ++
      (if info.has_charset then
        "; charset=" ++ info.charset.getD ""
      else "")
  let replayed := ctx.clone_rewrite info.cached_html
  let (setup, trig_ef) := triggerProxyFetch opts true info
  ({ status := 200,
     content_type := content_type,
     rewriter_header := (kPsaRewriterHeader, kCacheHtmlFilterId),
     date_ms := ctx.now_ms,
     cache_ttl_ms := 0,
     cache_control_suffix := ", private, no-cache",
     experiment_cookie := opts.need_to_store_experiment_data ∧
       opts.running_furious,
     body := replayed ++ blinkJsString ctx.blink_asset_url ++
       kCacheHtmlSuffixJsString,
     effects := .incHits :: .headersComplete :: .flushBody :: trig_ef },
   setup)

/-- Outcome of `CacheHtmlFlow::CacheHtmlLookupDone`: either the hit path
(with the assembled response) or the miss path. -/
inductive LookupOutcome where
  | hit (resp : HitResponse) (setup : ProxyFetchSetup)
  | miss (effects : List Effect) (setup : ProxyFetchSetup)
  deriving DecidableEq, Repr

/-- `CacheHtmlFlow::CacheHtmlLookupDone`: populate the record from the
property slot, then dispatch on `has_cached_html()`. -/
def cacheHtmlLookupDone (ctx : ServerCtx) (opts : RewriteOptions)
    (slot : Option (List Nat)) : LookupOutcome :=
  let (info, pop_ef) := populateCacheHtmlInfo opts ctx.now_ms slot
  if info.has_cached_html then
    let (resp, setup) := cacheHtmlHit ctx opts info
    .hit { resp with effects := pop_ef ++ resp.effects } setup
  else
    let (setup, ef) := cacheHtmlMiss opts info
    .miss (pop_ef ++ ef) setup

/-- `AsyncFetchWithHeadersInhibited::HandleDone` (the Header-Suppressing
Relay): forward completion to the wrapped sink, then call the armed
consumer's `Finish` when one is attached; self-destructs. -/
def asyncFetchWithHeadersInhibitedHandleDone (ctx : ServerCtx)
    (opts : RewriteOptions) (success : Bool)
    (consumer : Option CompFetch) : List Effect × Option CompFetch :=
  match consumer with
  | none => ([.forwardDone success], none)
  | some st =>
    let (st1, ef) := foregroundFinishCall ctx opts st
    (.forwardDone success :: .callFinish :: ef, some st1)

/-! ### Concrete instances used by witnesses -/

/-- A concrete external-collaborator context for witnesses. -/
def ctxW : ServerCtx :=
  { hasher := id, now_ms := 100, determined_charset := "utf-8",
    blink_asset_url := "/psajs/blink.js", clone_rewrite := id }

/-- Options with both change-detection modes off. -/
def optsOff : RewriteOptions :=
  { enable_blink_html_change_detection := false,
    enable_blink_html_change_detection_logging := false,
    use_smart_diff_in_blink := false,
    blink_max_html_size_rewritable := 100,
    blink_cache_time_ms := 1000,
    need_to_store_experiment_data := false,
    running_furious := false }

/-- Options with active change detection on. -/
def optsCD : RewriteOptions :=
  { optsOff with enable_blink_html_change_detection := true }

/-- A concrete stored record for witnesses. -/
def infoW : CacheHtmlInfo :=
  { cached_html := "<html>", hash := "h1", hash_smart_diff := "s1",
    charset := some "utf-8",
    last_cached_html_computation_timestamp_ms := 50 }

/-- A freshly constructed computation fetch holding `infoW`. -/
def stW1 : CompFetch := mkCompFetch infoW

/-- Every run of `ProcessDiffResult` emits its entry marker exactly
once. -/
theorem processDiffResult_count_marker (ctx : ServerCtx)
    (opts : RewriteOptions) (st : CompFetch) :
    (processDiffResult ctx opts st).count .processDiffRun = 1 := by
  simp only [processDiffResult, updatePropertyCacheWithCacheHtmlInfo,
    deleteCacheHtmlInfoFromPropertyCache]
  repeat' split
  all_goals rfl

/-- C1: on the hit path with change detection enabled, `Finish()` is
called once by the foreground relay (`AsyncFetchWithHeadersInhibited::HandleDone`)
and once by the background `CacheHtmlComputationFetch`; in both orders
of the two calls, the first call only sets the shared `finish_` flag and
returns with no other side effect, and the second call runs
`ProcessDiffResult()` exactly once. -/
theorem finish_barrier_spec (ctx : ServerCtx) (opts : RewriteOptions)
    (st : CompFetch) (success : Bool) (h : st.finish = false) :
    (asyncFetchWithHeadersInhibitedHandleDone ctx opts success (some st) =
       ([.forwardDone success, .callFinish], some { st with finish := true })) ∧
    (foregroundFinishCall ctx opts st = ({ st with finish := true }, []) ∧
     backgroundFinishCall ctx opts { st with finish := true } =
       ({ st with finish := true },
        processDiffResult ctx opts { st with finish := true }) ∧
     ((foregroundFinishCall ctx opts st).2 ++
        (backgroundFinishCall ctx opts
          (foregroundFinishCall ctx opts st).1).2).count .processDiffRun = 1) ∧
    (backgroundFinishCall ctx opts st = ({ st with finish := true }, []) ∧
     foregroundFinishCall ctx opts { st with finish := true } =
       ({ st with finish := true },
        processDiffResult ctx opts { st with finish := true }) ∧
     ((backgroundFinishCall ctx opts st).2 ++
        (foregroundFinishCall ctx opts
          (backgroundFinishCall ctx opts st).1).2).count .processDiffRun = 1) := by
  have hfg : foregroundFinishCall ctx opts st = ({ st with finish := true }, []) := by
    simp [foregroundFinishCall, finishFn, h]
  have hbg : backgroundFinishCall ctx opts st = ({ st with finish := true }, []) := by
    simp [backgroundFinishCall, finishFn, h]
  have hfg2 : foregroundFinishCall ctx opts { st with finish := true } =
      ({ st with finish := true },
       processDiffResult ctx opts { st with finish := true }) := by
    simp [foregroundFinishCall, finishFn]
  have hbg2 : backgroundFinishCall ctx opts { st with finish := true } =
      ({ st with finish := true },
       processDiffResult ctx opts { st with finish := true }) := by
    simp [backgroundFinishCall, finishFn]
  refine ⟨?_, ⟨hfg, hbg2, ?_⟩, ⟨hbg, hfg2, ?_⟩⟩
  · simp [asyncFetchWithHeadersInhibitedHandleDone, foregroundFinishCall,
      finishFn, h]
  · rw [hfg, hbg2]
    simpa using processDiffResult_count_marker ctx opts { st with finish := true }
  · rw [hbg, hfg2]
    simpa using processDiffResult_count_marker ctx opts { st with finish := true }

/-- Witness for C1 at a concrete request state. -/
theorem finish_barrier_spec_witness :
    stW1.finish = false ∧
    (asyncFetchWithHeadersInhibitedHandleDone ctxW optsCD true (some stW1) =
      ([.forwardDone true, .callFinish], some { stW1 with finish := true })) :=
  ⟨rfl, (finish_barrier_spec ctxW optsCD stW1 true rfl).1⟩

/-! ### C2: ProcessDiffResult -/

/-- The comparison hash selected by configuration in
`ProcessDiffResult`: the smart-diff hash when `use_smart_diff_in_blink`
is set, the full hash otherwise. -/
def configuredHashMismatch (opts : RewriteOptions) (st : CompFetch) : Prop :=
  if opts.use_smart_diff_in_blink then
    st.computed_hash_smart_diff ≠ st.cache_html_info.hash_smart_diff
  else
    st.computed_hash ≠ st.cache_html_info.hash

instance (opts : RewriteOptions) (st : CompFetch) :
    Decidable (configuredHashMismatch opts st) := by
  unfold configuredHashMismatch
  infer_instance

/-- C2 (amended): behaviour of `ProcessDiffResult()`.  With a non-empty
computed full hash: on a configured-hash mismatch under active change
detection, the cache entry is deleted first and a fresh plain
computation launched; otherwise, when active change detection is on or
either computed hash differs from the stored one, an updated record
carrying the new hashes and charset — but the stored record's original
timestamp, which this path does not refresh — is persisted; otherwise
no cache write occurs.  With an empty computed full hash the result is
abandoned with no cache write. -/
theorem process_diff_result_spec (ctx : ServerCtx) (opts : RewriteOptions)
    (st : CompFetch) :
    (st.computed_hash = "" →
      processDiffResult ctx opts st = [.processDiffRun, .destroySelf]) ∧
    (st.computed_hash ≠ "" →
      (opts.enable_blink_html_change_detection = true →
        configuredHashMismatch opts st →
        processDiffResult ctx opts st =
          [.processDiffRun, .incMismatchDeletes, .deleteProperty,
           .writeCohort, .launchPlainComputation]) ∧
      (¬(opts.enable_blink_html_change_detection = true ∧
          configuredHashMismatch opts st) →
        ((opts.enable_blink_html_change_detection = true ∨
            st.computed_hash ≠ st.cache_html_info.hash ∨
            st.computed_hash_smart_diff ≠ st.cache_html_info.hash_smart_diff) →
          processDiffResult ctx opts st =
            [.processDiffRun,
             .writeProperty (serializeCacheHtmlInfo
               { st.cache_html_info with
                   charset := some ctx.determined_charset,
                   hash := st.computed_hash,
                   hash_smart_diff := st.computed_hash_smart_diff }),
             .writeCohort, .destroySelf]) ∧
        (opts.enable_blink_html_change_detection = false →
          st.computed_hash = st.cache_html_info.hash →
          st.computed_hash_smart_diff = st.cache_html_info.hash_smart_diff →
          processDiffResult ctx opts st = [.processDiffRun, .destroySelf]))) := by
  refine ⟨fun he => ?_, fun hne => ⟨fun hcd hmm => ?_, fun hnd => ⟨fun hor => ?_, fun hcd hh hs => ?_⟩⟩⟩
  · simp [processDiffResult, he]
  · have : (if opts.use_smart_diff_in_blink then
        st.computed_hash_smart_diff ≠ st.cache_html_info.hash_smart_diff
      else st.computed_hash ≠ st.cache_html_info.hash) := hmm
    simp only [processDiffResult, if_neg hne, deleteCacheHtmlInfoFromPropertyCache]
    rw [if_pos ⟨hcd, this⟩]
    rfl
  · have hmm' : ¬(if opts.use_smart_diff_in_blink then
        st.computed_hash_smart_diff ≠ st.cache_html_info.hash_smart_diff
      else st.computed_hash ≠ st.cache_html_info.hash) ∨
        opts.enable_blink_html_change_detection = false := by
      by_cases hc : opts.enable_blink_html_change_detection = true
      · left
        intro hx
        exact hnd ⟨hc, hx⟩
      · right
        simpa using hc
    simp only [processDiffResult, if_neg hne,
      updatePropertyCacheWithCacheHtmlInfo, updatedCacheHtmlInfo]
    rcases hmm' with hm | hc
    · rw [if_neg (fun hand => hm hand.2), if_pos hor]
      rfl
    · rw [if_neg (fun hand => by simp [hc] at hand), if_pos hor]
      rfl
  · simp only [processDiffResult, if_neg hne]
    rw [if_neg, if_neg]
    · rintro (h1 | h2 | h3)
      · simp [hcd] at h1
      · exact h2 hh
      · exact h3 hs
    · rintro ⟨h1, -⟩
      simp [hcd] at h1

/-- Witness for C2's amended theorem: active change detection with a
smart-diff mismatch deletes the entry and relaunches the plain
computation. -/
def stW2 : CompFetch :=
  { stW1 with computed_hash := "h1", computed_hash_smart_diff := "sX" }

theorem process_diff_result_spec_witness :
    stW2.computed_hash ≠ "" ∧
    processDiffResult ctxW { optsCD with use_smart_diff_in_blink := true } stW2 =
      [.processDiffRun, .incMismatchDeletes, .deleteProperty,
       .writeCohort, .launchPlainComputation] :=
  ⟨by decide,
   ((process_diff_result_spec ctxW { optsCD with use_smart_diff_in_blink := true }
      stW2).2 (by decide)).1 rfl (by decide)⟩

/-- Concrete context for the C2 counterexample: the current time is 99. -/
def ctxC2 : ServerCtx := { ctxW with now_ms := 99 }

/-- Concrete state for the C2 counterexample: stored record computed at
time 5, full hashes differ, change detection disabled. -/
def stC2 : CompFetch :=
  mkCompFetch
    { cached_html := "X", hash := "old", hash_smart_diff := "olds",
      charset := none, last_cached_html_computation_timestamp_ms := 5 }
  |> fun st => { st with computed_hash := "new",
                         computed_hash_smart_diff := "news" }

/-- C2 counterexample: in the persist branch the record written back
keeps the stored record's timestamp (5) even though the current time is
99 — `UpdatePropertyCacheWithCacheHtmlInfo` does not refresh
`last_cached_html_computation_timestamp_ms`, contradicting the claim
that the updated record carries a new timestamp. -/
theorem process_diff_result_timestamp_counterexample :
    processDiffResult ctxC2 optsOff stC2 =
      [.processDiffRun,
       .writeProperty (serializeCacheHtmlInfo (updatedCacheHtmlInfo ctxC2 stC2)),
       .writeCohort, .destroySelf] ∧
    (updatedCacheHtmlInfo ctxC2 stC2).last_cached_html_computation_timestamp_ms
      = 5 ∧
    ctxC2.now_ms = 99 ∧
    (updatedCacheHtmlInfo ctxC2 stC2).last_cached_html_computation_timestamp_ms
      ≠ ctxC2.now_ms := by
  refine ⟨?_, by decide, by decide, by decide⟩
  simp [processDiffResult, stC2, optsOff, updatePropertyCacheWithCacheHtmlInfo,
    mkCompFetch]

/-! ### C3: CompleteFinishParseForHtmlChangeDriver -/

/-- C3: the visible-text output is split on the fixed end-marker token;
exactly when the split yields two segments, the smart-diff hash is
computed from the first segment and the full hash from the second; with
no prior cached HTML the flow falls through to plain computation over
the same buffered bytes; otherwise each computed hash is compared by
byte-exact string equality with the stored record's corresponding hash,
one match/mismatch counter per comparison is incremented, and `Finish()`
is called. -/
theorem html_change_completion_spec (ctx : ServerCtx)
    (opts : RewriteOptions) (st : CompFetch) (output : String) :
    (∀ r0 r1 : String,
      splitStringUsingSubstr output
          kComputeVisibleTextFilterOutputEndMarker = [r0, r1] →
      (st.cache_html_info.has_cached_html = false →
        completeFinishParseForHtmlChangeDriver ctx opts st output =
          ({ st with computed_hash_smart_diff := ctx.hasher r0,
                     computed_hash := ctx.hasher r1 },
           [.launchPlainComputation])) ∧
      (st.cache_html_info.has_cached_html = true →
        completeFinishParseForHtmlChangeDriver ctx opts st output =
          ((backgroundFinishCall ctx opts
              { st with computed_hash_smart_diff := ctx.hasher r0,
                        computed_hash := ctx.hasher r1 }).1,
           (if ctx.hasher r1 ≠ st.cache_html_info.hash then
              Effect.incMismatches
            else Effect.incMatches) ::
           (if ctx.hasher r0 ≠ st.cache_html_info.hash_smart_diff then
              Effect.incSmartMismatches
            else Effect.incSmartMatches) ::
           .callFinish ::
           (backgroundFinishCall ctx opts
              { st with computed_hash_smart_diff := ctx.hasher r0,
                        computed_hash := ctx.hasher r1 }).2))) ∧
    ((splitStringUsingSubstr output
        kComputeVisibleTextFilterOutputEndMarker).length ≠ 2 →
      (completeFinishParseForHtmlChangeDriver ctx opts st output).1.computed_hash
          = st.computed_hash ∧
      (completeFinishParseForHtmlChangeDriver
          ctx opts st output).1.computed_hash_smart_diff
          = st.computed_hash_smart_diff ∧
      (completeFinishParseForHtmlChangeDriver ctx opts st output).1.buffer
          = st.buffer) := by
  constructor
  · intro r0 r1 hsplit
    constructor
    · intro hno
      simp [completeFinishParseForHtmlChangeDriver, hsplit, hno]
    · intro hyes
      simp [completeFinishParseForHtmlChangeDriver, hsplit, hyes]
  · intro hlen
    have hcase : completeFinishParseForHtmlChangeDriver ctx opts st output =
        (if ¬st.cache_html_info.has_cached_html then
          (st, [.launchPlainComputation])
        else
          ((backgroundFinishCall ctx opts st).1,
           (if st.computed_hash ≠ st.cache_html_info.hash then
              Effect.incMismatches else Effect.incMatches) ::
           (if st.computed_hash_smart_diff ≠
                st.cache_html_info.hash_smart_diff then
              Effect.incSmartMismatches else Effect.incSmartMatches) ::
           .callFinish :: (backgroundFinishCall ctx opts st).2)) := by
      unfold completeFinishParseForHtmlChangeDriver
      rcases hres : splitStringUsingSubstr output
          kComputeVisibleTextFilterOutputEndMarker with _ | ⟨a, _ | ⟨b, _ | ⟨c, l⟩⟩⟩
      · rfl
      · rfl
      · rw [hres] at hlen
        simp at hlen
      · rfl
    rw [hcase]
    have hpres : (backgroundFinishCall ctx opts st).1.computed_hash =
        st.computed_hash ∧
        (backgroundFinishCall ctx opts st).1.computed_hash_smart_diff =
          st.computed_hash_smart_diff ∧
        (backgroundFinishCall ctx opts st).1.buffer = st.buffer := by
      unfold backgroundFinishCall finishFn
      by_cases hf : st.finish
      · simp [hf]
      · simp [hf]
    by_cases hhtml : st.cache_html_info.has_cached_html = true
    · rw [if_neg (show ¬¬(st.cache_html_info.has_cached_html = true) from
        fun hc => hc hhtml)]
      exact ⟨hpres.1, hpres.2.1, hpres.2.2⟩
    · rw [if_pos hhtml]
      exact ⟨rfl, rfl, rfl⟩

/-- Witness for C3: a concrete visible-text output with a marker
splitting into two segments, against a record whose full hash matches
and whose smart hash differs. -/
def outputW : String :=
  "sX" ++ kComputeVisibleTextFilterOutputEndMarker ++ "h1"

theorem html_change_completion_spec_witness :
    splitStringUsingSubstr outputW
        kComputeVisibleTextFilterOutputEndMarker = ["sX", "h1"] ∧
    stW1.cache_html_info.has_cached_html = true ∧
    completeFinishParseForHtmlChangeDriver ctxW optsCD stW1 outputW =
      ((backgroundFinishCall ctxW optsCD
          { stW1 with computed_hash_smart_diff := ctxW.hasher "sX",
                      computed_hash := ctxW.hasher "h1" }).1,
       Effect.incMatches :: Effect.incSmartMismatches :: .callFinish ::
       (backgroundFinishCall ctxW optsCD
          { stW1 with computed_hash_smart_diff := ctxW.hasher "sX",
                      computed_hash := ctxW.hasher "h1" }).2) := by
  have hsplit : splitStringUsingSubstr outputW
      kComputeVisibleTextFilterOutputEndMarker = ["sX", "h1"] := by decide
  refine ⟨hsplit, rfl, ?_⟩
  have h := ((html_change_completion_spec ctxW optsCD stW1 outputW).1
      "sX" "h1" hsplit).2 rfl
  rw [h]
  decide

/-! ### C4: HandleWrite size threshold -/

/-- C4: evaluation of `HandleWrite`'s threshold comparison at the
failing input.  The claim states the comparison is over exact
(unbounded) integer byte counts, but the source casts the `size_t` sum
to `unsigned` (32 bits) before comparing with the `int64` maximum:
with an empty buffer, a chunk of 2^32 bytes and a configured maximum of
100, the exact sum 2^32 exceeds 100 (so per the claim buffering must be
abandoned), yet the code's truncated comparison yields `false` and the
chunk is appended.  A small in-range example shows the comparison agrees
with the exact one below 2^32, and `HandleWrite` always returns `true`. -/
theorem handle_write_threshold_truncation :
    bufferOverCheck 0 4294967296 100 = false ∧
    ((0 + 4294967296 : Int) > 100) ∧
    bufferOverCheck 0 101 100 = true ∧
    (handleWrite optsOff
        { (mkCompFetch emptyCacheHtmlInfo) with
            claims_html := true, probable_html := true,
            detector_decided := true }
        "abc" ⟨false, false, ""⟩ =
      ({ (mkCompFetch emptyCacheHtmlInfo) with
           claims_html := true, probable_html := true,
           detector_decided := true, buffer := "abc" }, true)) := by
  refine ⟨by decide, by decide, by decide, ?_⟩
  decide

/-! ### C5: staleness handling in PopulateCacheHtmlInfo -/

/-- C5: a successfully parsed stored record whose age (`now` minus
`lastComputedAtMs`) exceeds the configured freshness window is cleared
(treated as absent) when change-detection mode is disabled; with
change-detection mode enabled the staleness check is skipped and the
stale record is kept. -/
theorem populate_staleness_spec (opts : RewriteOptions) (now_ms : Int)
    (bytes : List Nat) (info : CacheHtmlInfo)
    (hparse : parseCacheHtmlInfo bytes = some info)
    (hstale : now_ms - info.last_cached_html_computation_timestamp_ms >
      opts.blink_cache_time_ms) :
    (opts.enable_blink_html_change_detection = false →
      populateCacheHtmlInfo opts now_ms (some bytes) =
        (emptyCacheHtmlInfo, [])) ∧
    (opts.enable_blink_html_change_detection = true →
      populateCacheHtmlInfo opts now_ms (some bytes) = (info, [])) := by
  constructor
  · intro hcd
    simp only [populateCacheHtmlInfo, hparse]
    rw [if_pos]
    constructor
    · simp [hcd]
    · omega
  · intro hcd
    simp only [populateCacheHtmlInfo, hparse]
    rw [if_neg]
    rintro ⟨h1, -⟩
    simp [hcd] at h1

/-- Witness for C5: a concrete serialized record aged past a 1000 ms
window (computed at 50, read at 2000). -/
theorem populate_staleness_spec_witness :
    parseCacheHtmlInfo (serializeCacheHtmlInfo infoW) = some infoW ∧
    (2000 : Int) - infoW.last_cached_html_computation_timestamp_ms >
      optsOff.blink_cache_time_ms ∧
    populateCacheHtmlInfo optsOff 2000
        (some (serializeCacheHtmlInfo infoW)) = (emptyCacheHtmlInfo, []) ∧
    populateCacheHtmlInfo optsCD 2000
        (some (serializeCacheHtmlInfo infoW)) = (infoW, []) :=
  ⟨parseCacheHtmlInfo_serializeCacheHtmlInfo infoW, by decide,
   (populate_staleness_spec optsOff 2000 (serializeCacheHtmlInfo infoW) infoW
      (parseCacheHtmlInfo_serializeCacheHtmlInfo infoW) (by decide)).1 rfl,
   (populate_staleness_spec optsCD 2000 (serializeCacheHtmlInfo infoW) infoW
      (parseCacheHtmlInfo_serializeCacheHtmlInfo infoW) (by decide)).2 rfl⟩

/-! ### C6: the miss path of CacheHtmlLookupDone -/

/-- `PopulateCacheHtmlInfo` either produces its record with no logging,
or clears the record and logs the parse failure. -/
theorem populateCacheHtmlInfo_shape (opts : RewriteOptions) (now_ms : Int)
    (slot : Option (List Nat)) :
    populateCacheHtmlInfo opts now_ms slot =
      ((populateCacheHtmlInfo opts now_ms slot).1, []) ∨
    populateCacheHtmlInfo opts now_ms slot =
      (emptyCacheHtmlInfo, [.logParseFailureDFatal]) := by
  rcases slot with - | bytes
  · left
    rfl
  · rcases hp : parseCacheHtmlInfo bytes with - | info
    · right
      simp [populateCacheHtmlInfo, hp]
    · by_cases hc : ¬opts.enable_blink_html_change_detection = true ∧
          now_ms > info.last_cached_html_computation_timestamp_ms +
            opts.blink_cache_time_ms
      · left
        simp only [populateCacheHtmlInfo, hp]
        rw [if_pos hc]
      · left
        simp only [populateCacheHtmlInfo, hp]
        rw [if_neg hc]

/-- C6: a lookup whose record is absent, malformed (logged, flow
continues), expired, or has empty rendered HTML takes the miss path:
no cached content is served, the miss counter is incremented exactly
once (and the hit counter not at all), and the request is handed to the
proxy-fetch dispatch. -/
theorem lookup_miss_spec (ctx : ServerCtx) (opts : RewriteOptions)
    (slot : Option (List Nat)) :
    (slot = none →
      (populateCacheHtmlInfo opts ctx.now_ms slot).1 = emptyCacheHtmlInfo) ∧
    (∀ bytes, slot = some bytes → parseCacheHtmlInfo bytes = none →
      populateCacheHtmlInfo opts ctx.now_ms slot =
        (emptyCacheHtmlInfo, [.logParseFailureDFatal])) ∧
    (∀ bytes info, slot = some bytes → parseCacheHtmlInfo bytes = some info →
      opts.enable_blink_html_change_detection = false →
      ctx.now_ms - info.last_cached_html_computation_timestamp_ms >
        opts.blink_cache_time_ms →
      (populateCacheHtmlInfo opts ctx.now_ms slot).1 = emptyCacheHtmlInfo) ∧
    (∀ bytes info, slot = some bytes → parseCacheHtmlInfo bytes = some info →
      info.cached_html = "" →
      (populateCacheHtmlInfo opts ctx.now_ms slot).1.has_cached_html = false) ∧
    emptyCacheHtmlInfo.has_cached_html = false ∧
    ((populateCacheHtmlInfo opts ctx.now_ms slot).1.has_cached_html = false →
      cacheHtmlLookupDone ctx opts slot =
        .miss ((populateCacheHtmlInfo opts ctx.now_ms slot).2 ++
            [.incMisses, .removeConditionalHeaders, .startProxyFetch])
          ⟨some (mkCompFetch (populateCacheHtmlInfo opts ctx.now_ms slot).1),
           false⟩ ∧
      ((populateCacheHtmlInfo opts ctx.now_ms slot).2 ++
          [Effect.incMisses, .removeConditionalHeaders,
           .startProxyFetch]).count .incMisses = 1 ∧
      ((populateCacheHtmlInfo opts ctx.now_ms slot).2 ++
          [Effect.incMisses, .removeConditionalHeaders,
           .startProxyFetch]).count .incHits = 0) := by
  refine ⟨fun h => by subst h; rfl, fun bytes hs hp => ?_,
    fun bytes info hs hp hcd hst => ?_, fun bytes info hs hp hch => ?_,
    rfl, fun hmiss => ?_⟩
  · subst hs
    simp [populateCacheHtmlInfo, hp]
  · subst hs
    simp only [populateCacheHtmlInfo, hp]
    have hpos : (¬opts.enable_blink_html_change_detection = true ∧
        ctx.now_ms > info.last_cached_html_computation_timestamp_ms +
          opts.blink_cache_time_ms) := ⟨by simp [hcd], by omega⟩
    rw [if_pos hpos]
  · subst hs
    simp only [populateCacheHtmlInfo, hp]
    by_cases hc : ¬opts.enable_blink_html_change_detection = true ∧
        ctx.now_ms > info.last_cached_html_computation_timestamp_ms +
          opts.blink_cache_time_ms
    · rw [if_pos hc]
      rfl
    · rw [if_neg hc]
      simp [CacheHtmlInfo.has_cached_html, hch]
  · have hlk : cacheHtmlLookupDone ctx opts slot =
        .miss ((populateCacheHtmlInfo opts ctx.now_ms slot).2 ++
            [.incMisses, .removeConditionalHeaders, .startProxyFetch])
          ⟨some (mkCompFetch (populateCacheHtmlInfo opts ctx.now_ms slot).1),
           false⟩ := by
      unfold cacheHtmlLookupDone cacheHtmlMiss triggerProxyFetch
      rcases hpop : populateCacheHtmlInfo opts ctx.now_ms slot with ⟨info, pop_ef⟩
      rw [hpop] at hmiss
      have hm2 : info.has_cached_html = false := hmiss
      simp only [hpop]
      rw [if_neg (by simp [hm2])]
      rfl
    refine ⟨hlk, ?_, ?_⟩ <;>
      rcases populateCacheHtmlInfo_shape opts ctx.now_ms slot with h | h <;>
        rw [show (populateCacheHtmlInfo opts ctx.now_ms slot).2 =
              (populateCacheHtmlInfo opts ctx.now_ms slot).2 from rfl] <;>
        rw [h] <;> rfl

/-- Witness for C6: a malformed blob (a length prefix with no data)
takes the miss path with the parse failure logged. -/
theorem lookup_miss_spec_witness :
    parseCacheHtmlInfo [5] = none ∧
    cacheHtmlLookupDone ctxW optsOff (some [5]) =
      .miss [.logParseFailureDFatal, .incMisses, .removeConditionalHeaders,
             .startProxyFetch]
        ⟨some (mkCompFetch emptyCacheHtmlInfo), false⟩ := by
  have h := (lookup_miss_spec ctxW optsOff (some [5])).2.2.2.2.2 (by decide)
  refine ⟨by decide, ?_⟩
  rw [h.1]
  decide

/-! ### C7: the hit path -/

/-- C7: a lookup yielding a present, non-expired record with non-empty
rendered HTML produces status 200, `text/html` with the cached charset
when present, the rewriter-identification header, private/no-cache
caching, flushed headers, the cached HTML replayed through the cloned
driver, and the bootstrap script block (one external script tag plus one
inline script with three initialization calls) appended exactly once;
the hit counter is incremented exactly once. -/
theorem lookup_hit_spec (ctx : ServerCtx) (opts : RewriteOptions)
    (slot : Option (List Nat))
    (hhit : (populateCacheHtmlInfo opts ctx.now_ms slot).1.has_cached_html
      = true) :
    cacheHtmlLookupDone ctx opts slot =
      .hit
        { status := 200,
          content_type := "text/html" ++
            (if (populateCacheHtmlInfo opts ctx.now_ms slot).1.has_charset then
              "; charset=" ++
                ((populateCacheHtmlInfo opts ctx.now_ms slot).1.charset.getD "")
            else ""),
          rewriter_header := (kPsaRewriterHeader, kCacheHtmlFilterId),
          date_ms := ctx.now_ms,
          cache_ttl_ms := 0,
          cache_control_suffix := ", private, no-cache",
          experiment_cookie := opts.need_to_store_experiment_data ∧
            opts.running_furious,
          body := ctx.clone_rewrite
              (populateCacheHtmlInfo opts ctx.now_ms slot).1.cached_html ++
            blinkJsString ctx.blink_asset_url ++ kCacheHtmlSuffixJsString,
          effects := [.incHits, .headersComplete, .flushBody,
            .removeConditionalHeaders, .startProxyFetch] }
        ⟨if opts.enable_blink_html_change_detection = true ∨
            opts.enable_blink_html_change_detection_logging = true then
          some (mkCompFetch (populateCacheHtmlInfo opts ctx.now_ms slot).1)
        else none, true⟩ ∧
    ([Effect.incHits, .headersComplete, .flushBody, .removeConditionalHeaders,
      .startProxyFetch].count .incHits = 1 ∧
     [Effect.incHits, .headersComplete, .flushBody, .removeConditionalHeaders,
      .startProxyFetch].count .incMisses = 0) ∧
    (kCacheHtmlSuffixJsString = "<script type=\"text/javascript\">" ++
        String.join panelLoaderInitCalls ++ "</script>\n" ∧
     panelLoaderInitCalls.length = 3) := by
  refine ⟨?_, ⟨rfl, rfl⟩, ⟨by decide, rfl⟩⟩
  rcases hshape : populateCacheHtmlInfo opts ctx.now_ms slot with ⟨info, pop_ef⟩
  have hpe : pop_ef = [] := by
    rcases populateCacheHtmlInfo_shape opts ctx.now_ms slot with h | h
    · rw [hshape] at h
      exact congrArg Prod.snd h
    · have hpair : (info, pop_ef) = (emptyCacheHtmlInfo,
          [Effect.logParseFailureDFatal]) := hshape.symm.trans h
      have hinfo : info = emptyCacheHtmlInfo := congrArg Prod.fst hpair
      have hh2 : info.has_cached_html = true := by
        rw [hshape] at hhit
        exact hhit
      rw [hinfo] at hh2
      exact absurd hh2 (by decide)
  rw [hshape] at hhit
  have hm : info.has_cached_html = true := hhit
  subst hpe
  unfold cacheHtmlLookupDone cacheHtmlHit triggerProxyFetch
  simp only [hshape]
  rw [if_pos hm]
  simp only [List.nil_append]
  congr 1
  simp

/-- Witness for C7 at a concrete fresh record. -/
theorem lookup_hit_spec_witness :
    (populateCacheHtmlInfo optsOff ctxW.now_ms
        (some (serializeCacheHtmlInfo infoW))).1.has_cached_html = true ∧
    cacheHtmlLookupDone ctxW optsOff (some (serializeCacheHtmlInfo infoW)) =
      .hit
        { status := 200,
          content_type := "text/html; charset=utf-8",
          rewriter_header := (kPsaRewriterHeader, kCacheHtmlFilterId),
          date_ms := 100,
          cache_ttl_ms := 0,
          cache_control_suffix := ", private, no-cache",
          experiment_cookie := False,
          body := "<html>" ++ blinkJsString "/psajs/blink.js" ++
            kCacheHtmlSuffixJsString,
          effects := [.incHits, .headersComplete, .flushBody,
            .removeConditionalHeaders, .startProxyFetch] }
        ⟨none, true⟩ := by
  have hhit : (populateCacheHtmlInfo optsOff ctxW.now_ms
      (some (serializeCacheHtmlInfo infoW))).1.has_cached_html = true := by
    decide
  refine ⟨hhit, ?_⟩
  rw [(lookup_hit_spec ctxW optsOff (some (serializeCacheHtmlInfo infoW))
    hhit).1]
  congr 1

/-! ### C8: HandleDone on a failed / non-qualifying stream -/

/-- C8: when `HandleDone` fires after a failed fetch, a non-200 status,
a body never classified as HTML, or an over-threshold response, no
computation pipeline is launched and no cache write occurs; `Finish()`
is called exactly when the previously read record has cached HTML, and
otherwise the object destroys itself immediately without touching the
barrier.  (The computed hashes are still empty at `HandleDone` time, as
they are only assigned by the change-driver completion, which runs
later.) -/
theorem handle_done_failure_spec (ctx : ServerCtx) (opts : RewriteOptions)
    (st : CompFetch) (success : Bool)
    (hfail : st.non_ok_status_code = true ∨ success = false ∨
      st.claims_html = false ∨ st.probable_html = false ∨
      st.content_length_over_threshold = true)
    (hhash : st.computed_hash = "") :
    (st.cache_html_info.has_cached_html = true →
      handleDone ctx opts st success =
        ((backgroundFinishCall ctx opts st).1,
         .callFinish :: (backgroundFinishCall ctx opts st).2) ∧
      (∀ e ∈ (handleDone ctx opts st success).2,
        e ≠ .launchPlainComputation ∧
        e ≠ .launchChangeDetectionComputation ∧
        e ≠ .deleteProperty ∧ (∀ bs, e ≠ .writeProperty bs))) ∧
    (st.cache_html_info.has_cached_html = false →
      handleDone ctx opts st success = (st, [.destroySelf])) := by
  have hguard : (st.non_ok_status_code = true ∨ ¬success = true ∨
      ¬st.claims_html = true ∨ ¬st.probable_html = true ∨
      st.content_length_over_threshold = true) := by
    rcases hfail with h | h | h | h | h
    · exact Or.inl h
    · exact Or.inr (Or.inl (by simp [h]))
    · exact Or.inr (Or.inr (Or.inl (by simp [h])))
    · exact Or.inr (Or.inr (Or.inr (Or.inl (by simp [h]))))
    · exact Or.inr (Or.inr (Or.inr (Or.inr h)))
  have hbg : (backgroundFinishCall ctx opts st).2 = [] ∨
      (backgroundFinishCall ctx opts st).2 =
        [.processDiffRun, .destroySelf] := by
    unfold backgroundFinishCall finishFn
    by_cases hf : st.finish = true
    · right
      simp [hf, processDiffResult, hhash]
    · left
      simp [hf]
  constructor
  · intro hc
    have heq : handleDone ctx opts st success =
        ((backgroundFinishCall ctx opts st).1,
         .callFinish :: (backgroundFinishCall ctx opts st).2) := by
      unfold handleDone
      rw [if_pos hguard, if_pos hc]
    refine ⟨heq, ?_⟩
    intro e he
    rw [heq] at he
    rcases hbg with h | h <;> rw [h] at he <;> simp at he
    · subst he
      exact ⟨(fun hx => nomatch hx), (fun hx => nomatch hx),
        (fun hx => nomatch hx), (fun bs hx => nomatch hx)⟩
    · rcases he with he | he | he <;> subst he <;>
        exact ⟨(fun hx => nomatch hx), (fun hx => nomatch hx),
          (fun hx => nomatch hx), (fun bs hx => nomatch hx)⟩
  · intro hc
    unfold handleDone
    rw [if_pos hguard, if_neg (by simp [hc])]

/-- Witness for C8: a non-200 fetch over an existing cached record calls
`Finish` (which, as first caller, just sets the barrier flag). -/
def stW8 : CompFetch := { stW1 with non_ok_status_code := true }

theorem handle_done_failure_spec_witness :
    stW8.non_ok_status_code = true ∧ stW8.computed_hash = "" ∧
    stW8.cache_html_info.has_cached_html = true ∧
    handleDone ctxW optsCD stW8 true =
      ({ stW8 with finish := true }, [.callFinish]) := by
  have h := (handle_done_failure_spec ctxW optsCD stW8 true
    (Or.inl rfl) rfl).1 rfl
  refine ⟨rfl, rfl, rfl, ?_⟩
  rw [h.1]
  decide

/-! ### C9: write/read round trip through the property store -/

/-- C9: a record persisted by `UpdatePropertyCacheWithCacheHtmlInfo`
and then read back by `PopulateCacheHtmlInfo` under the same property
key reproduces byte-identical `renderedHtml`, `contentHash`,
`smartDiffHash` and `charset` fields, provided the record is within the
freshness window or change detection is enabled. -/
theorem update_populate_roundtrip_spec (ctx : ServerCtx)
    (opts : RewriteOptions) (st : CompFetch) (now_ms : Int)
    (hfresh : opts.enable_blink_html_change_detection = true ∨
      ¬(now_ms > (updatedCacheHtmlInfo ctx
          st).last_cached_html_computation_timestamp_ms +
        opts.blink_cache_time_ms)) :
    updatePropertyCacheWithCacheHtmlInfo ctx st =
      [.writeProperty (serializeCacheHtmlInfo (updatedCacheHtmlInfo ctx st)),
       .writeCohort] ∧
    populateCacheHtmlInfo opts now_ms
        (some (serializeCacheHtmlInfo (updatedCacheHtmlInfo ctx st))) =
      (updatedCacheHtmlInfo ctx st, []) ∧
    (populateCacheHtmlInfo opts now_ms
        (some (serializeCacheHtmlInfo (updatedCacheHtmlInfo ctx
          st)))).1.cached_html = st.cache_html_info.cached_html ∧
    (populateCacheHtmlInfo opts now_ms
        (some (serializeCacheHtmlInfo (updatedCacheHtmlInfo ctx
          st)))).1.hash = st.computed_hash ∧
    (populateCacheHtmlInfo opts now_ms
        (some (serializeCacheHtmlInfo (updatedCacheHtmlInfo ctx
          st)))).1.hash_smart_diff = st.computed_hash_smart_diff ∧
    (populateCacheHtmlInfo opts now_ms
        (some (serializeCacheHtmlInfo (updatedCacheHtmlInfo ctx
          st)))).1.charset = some ctx.determined_charset := by
  have hpop : populateCacheHtmlInfo opts now_ms
      (some (serializeCacheHtmlInfo (updatedCacheHtmlInfo ctx st))) =
      (updatedCacheHtmlInfo ctx st, []) := by
    simp only [populateCacheHtmlInfo,
      parseCacheHtmlInfo_serializeCacheHtmlInfo]
    rw [if_neg]
    rintro ⟨h1, h2⟩
    rcases hfresh with hcd | hnf
    · exact h1 hcd
    · exact hnf h2
  exact ⟨rfl, hpop, by rw [hpop]; rfl, by rw [hpop]; rfl,
    by rw [hpop]; rfl, by rw [hpop]; rfl⟩

/-- Witness for C9 at a concrete state: change detection on, so the
freshness condition holds trivially. -/
theorem update_populate_roundtrip_spec_witness :
    populateCacheHtmlInfo optsCD 2000
        (some (serializeCacheHtmlInfo (updatedCacheHtmlInfo ctxW stW2))) =
      (updatedCacheHtmlInfo ctxW stW2, []) :=
  (update_populate_roundtrip_spec ctxW optsCD stW2 2000 (Or.inl rfl)).2.1

/-! ### C10: hit path with change detection fully disabled -/

/-- C10: after serving cached content with both change-detection modes
off, `TriggerProxyFetch` constructs no background computation consumer
(a null consumer is handed to the header-suppressing relay and the
dispatcher), the relay's `HandleDone` forwards completion and skips the
barrier `Finish()` call, and the request performs no property-store
mutation. -/
theorem hit_no_detection_frame_spec (ctx : ServerCtx)
    (opts : RewriteOptions) (info : CacheHtmlInfo) (success : Bool)
    (hcd : opts.enable_blink_html_change_detection = false)
    (hlog : opts.enable_blink_html_change_detection_logging = false) :
    triggerProxyFetch opts true info =
      (⟨none, true⟩, [.removeConditionalHeaders, .startProxyFetch]) ∧
    asyncFetchWithHeadersInhibitedHandleDone ctx opts success none =
      ([.forwardDone success], none) ∧
    (∀ e ∈ (triggerProxyFetch opts true info).2 ++
        (asyncFetchWithHeadersInhibitedHandleDone ctx opts success none).1,
      (∀ bs, e ≠ .writeProperty bs) ∧ e ≠ .deleteProperty ∧
      e ≠ .writeCohort ∧ e ≠ .callFinish) := by
  have h1 : triggerProxyFetch opts true info =
      (⟨none, true⟩, [.removeConditionalHeaders, .startProxyFetch]) := by
    unfold triggerProxyFetch
    rw [if_neg]
    rintro (hx | hx | hx)
    · exact hx rfl
    · rw [hcd] at hx
      exact Bool.false_ne_true hx
    · rw [hlog] at hx
      exact Bool.false_ne_true hx
  refine ⟨h1, rfl, ?_⟩
  intro e he
  rw [h1, show asyncFetchWithHeadersInhibitedHandleDone ctx opts success none =
    ([.forwardDone success], none) from rfl] at he
  simp at he
  rcases he with he | he | he <;> subst he <;>
    exact ⟨(fun bs hx => nomatch hx), (fun hx => nomatch hx),
      (fun hx => nomatch hx), (fun hx => nomatch hx)⟩

/-- Witness for C10 at concrete options with detection disabled. -/
theorem hit_no_detection_frame_spec_witness :
    optsOff.enable_blink_html_change_detection = false ∧
    triggerProxyFetch optsOff true infoW =
      (⟨none, true⟩, [.removeConditionalHeaders, .startProxyFetch]) ∧
    asyncFetchWithHeadersInhibitedHandleDone ctxW optsOff true none =
      ([.forwardDone true], none) :=
  ⟨rfl, (hit_no_detection_frame_spec ctxW optsOff infoW true rfl rfl).1,
   (hit_no_detection_frame_spec ctxW optsOff infoW true rfl rfl).2.1⟩
